import Mathlib

/-!
Verification of the neo-snake screen controller (`src/unnamed/part_000`, the
top-level `App` component).  The controller is embedded shallowly: React
`useState` slots become fields of `AppState`, the session store
(`useGameStore`) becomes the `Session` structure, and each `useCallback`
handler becomes a pure function on `AppState`.  Handlers that only call out
to external collaborators (the D-Pad direction callback, the user-progress
store's `unlockNextLevel`) additionally return a list of `Effect`s.  A guarded
event system mirrors which handlers are wired into the currently rendered
component tree, and `Reachable` closes the initial state under those events.
-/

namespace NeoSnake

/-- The four screens of the controller (`type Screen` in the source). -/
inductive Screen where
  | menu
  | game
  | gameover
  | adventureMap
deriving DecidableEq, Repr

/-- Game mode (`type GameMode` from the user store; the controller uses
classic and adventure). -/
inductive GameMode where
  | classic
  | adventure
deriving DecidableEq, Repr

/-- D-Pad directions (`Direction` from `engine/types`). -/
inductive Direction where
  | up
  | down
  | left
  | right
deriving DecidableEq, Repr

/-- A cosmetic snake configuration (`SnakeConfig`).  Only the fields the
controller reads are modelled: an identity and the optional `extraLives`
stat (the source reads it as `snake?.extraLives || 0`). -/
structure SnakeConfig where
  id : Nat
  extraLives : Option Nat
deriving DecidableEq, Repr

/-- The session store state (`useGameStore`): the fields named by the spec
and read or written by the controller. -/
structure Session where
  isPlaying : Bool
  isPaused : Bool
  isGameOver : Bool
  score : Nat
  lives : Nat
  level : Nat
  lastPlayedLevel : Nat
  catHitsThisLevel : Nat
  isFirstGame : Bool
  isDying : Bool
  isStunned : Bool
  stunEndTime : Nat
deriving DecidableEq, Repr

/-- Modelled from the spec: the session store's default state (the store
source is not under `src/`; the spec says Session State is reset to defaults
whenever the controller transitions to Menu).  The particular default field
values are representative; the theorems depend only on `reset` and the
initial store state agreeing on them. -/
def defaultSession : Session where
  isPlaying := false
  isPaused := false
  isGameOver := false
  score := 0
  lives := 3
  level := 1
  lastPlayedLevel := 1
  catHitsThisLevel := 0
  isFirstGame := true
  isDying := false
  isStunned := false
  stunEndTime := 0

/-- Modelled from the spec: the session store's `reset()` operation (store
source not under `src/`): restores the default Session State. -/
def Session.reset (_s : Session) : Session := defaultSession

/-- Modelled from the spec: the session store's
`startGame(snake, mode, optionalLevel)` operation (store source not under
`src/`): initializes Session State (lives, score, level), at level L when a
level is given (adventure), else at the initial level. -/
def startGameStore (snake : Option SnakeConfig) (_mode : GameMode)
    (lvl : Option Nat) (_s : Session) : Session where
  isPlaying := true
  isPaused := false
  isGameOver := false
  score := 0
  lives := 3 + ((snake.bind SnakeConfig.extraLives).getD 0)
  level := lvl.getD 1
  lastPlayedLevel := lvl.getD 1
  catHitsThisLevel := 0
  isFirstGame := true
  isDying := false
  isStunned := false
  stunEndTime := 0

/-- Modelled from the spec: the session store's `pauseGame()` operation
(store source not under `src/`): pauses Session State. -/
def Session.pauseGame (s : Session) : Session := { s with isPaused := true }

/-- Modelled from the spec: the session store's `resumeGame()` operation
(store source not under `src/`): resumes Session State. -/
def Session.resumeGame (s : Session) : Session := { s with isPaused := false }

/-- The controller's own state: the `useState` slots of `App`, the
`directionCallbackRef` (the registered handler is identified by a number,
its body living in the external engine), and the session store snapshot. -/
structure AppState where
  screen : Screen
  showShop : Bool
  showSettings : Bool
  showPauseMenu : Bool
  currentSnake : Option SnakeConfig
  currentMode : GameMode
  gameKey : Nat
  justUnlockedLevel : Option Nat
  directionCallback : Option Nat
  session : Session
deriving DecidableEq, Repr

/-- Calls into external collaborators made by a handler. -/
inductive Effect where
  | log
  | unlockNextLevel
  | callDirection (handler : Nat) (dir : Direction)
deriving DecidableEq, Repr, BEq

/-- Initial state of `App`: Menu screen, no overlays, no snake, classic
mode, `gameKey = 0`, no pending unlock animation, no direction handler. -/
def initState : AppState where
  screen := Screen.menu
  showShop := false
  showSettings := false
  showPauseMenu := false
  currentSnake := none
  currentMode := GameMode.classic
  gameKey := 0
  justUnlockedLevel := none
  directionCallback := none
  session := defaultSession

/-- Handler `handleStartGame` (lines 39-44): records the snake and mode, starts the
session, and shows the Game screen. -/
def handleStartGame (snake : SnakeConfig) (mode : GameMode)
    (s : AppState) : AppState :=
  { s with
    currentSnake := some snake
    currentMode := mode
    session := startGameStore (some snake) mode none s.session
    screen := Screen.game }

/-- Handler `handleGameOver` (lines 46-48): switch to the GameOver screen. -/
def handleGameOver (s : AppState) : AppState :=
  { s with screen := Screen.gameover }

/-- Handler `handlePlayAgain` (lines 55-94): retry from GameOver.  `sel` is the
result of `getSelectedSnake()`; with no selection the handler returns
immediately.  Otherwise the pre-mutation store snapshot decides between a
full reset (`lives == 0`) and a partial retry, the bulk `setState` patch is
applied, `gameKey` is bumped only on a full reset, and the screen becomes
Game. -/
def handlePlayAgain (sel : Option SnakeConfig) (s : AppState) : AppState :=
  match sel with
  | none => s
  | some snake =>
    let store := s.session
    let currentLives := store.lives
    let isFullReset := currentLives == 0
    let s1 := { s with currentSnake := some snake }
    let snakeExtraLives := snake.extraLives.getD 0
    let totalLives := 3 + snakeExtraLives
    let s2 := { s1 with session := { store with
      isPlaying := true
      isPaused := false
      isGameOver := false
      score := if isFullReset then 0 else store.score
      catHitsThisLevel := if isFullReset then 0 else store.catHitsThisLevel
      level := if isFullReset then store.lastPlayedLevel else store.level
      lives := if isFullReset then totalLives else store.lives
      isFirstGame := if isFullReset then true else store.isFirstGame
      isDying := false
      isStunned := false
      stunEndTime := 0 } }
    let s3 := if isFullReset then { s2 with gameKey := s2.gameKey + 1 } else s2
    { s3 with screen := Screen.game }

/-- Handler `handleMainMenu` (lines 96-100): reset the session store, hide the pause
menu, and show the Menu screen. -/
def handleMainMenu (s : AppState) : AppState :=
  { s with
    session := s.session.reset
    showPauseMenu := false
    screen := Screen.menu }

/-- Handler `handlePauseGame` (lines 103-106): pause the session and show the pause
menu. -/
def handlePauseGame (s : AppState) : AppState :=
  { s with
    session := s.session.pauseGame
    showPauseMenu := true }

/-- Handler `handleResumeGame` (lines 108-111): hide the pause menu and resume the
session. -/
def handleResumeGame (s : AppState) : AppState :=
  { s with
    showPauseMenu := false
    session := s.session.resumeGame }

/-- Handler `handleOpenSettingsFromPause` (lines 113-115). -/
def handleOpenSettingsFromPause (s : AppState) : AppState :=
  { s with showSettings := true }

/-- Handler `handleDpadPress` (lines 117-121): if a direction callback is
registered, invoke it with the pressed direction; otherwise do nothing. -/
def handleDpadPress (dir : Direction) (s : AppState) :
    AppState × List Effect :=
  match s.directionCallback with
  | some h => (s, [Effect.callDirection h dir])
  | none => (s, [])

/-- Handler `setDirectionCallback` (lines 123-125): store the engine's direction
handler in the ref. -/
def setDirectionCallback (handler : Nat) (s : AppState) : AppState :=
  { s with directionCallback := some handler }

/-- Handler `handleAdventureLevelComplete` (lines 128-132): log, then forward one
`unlockNextLevel` mutation to the user-progress store; no state change. -/
def handleAdventureLevelComplete (_completedLevel : Nat) (s : AppState) :
    AppState × List Effect :=
  (s, [Effect.log, Effect.unlockNextLevel])

/-- The `onSelectLevel` prop of `AdventureMap` (lines 151-161): reads the
selection (with no null check), records it as current snake, switches to
adventure mode, starts the session at the chosen level, clears the pending
unlock animation, and shows the Game screen. -/
def onSelectLevel (sel : Option SnakeConfig) (lvl : Nat)
    (s : AppState) : AppState :=
  { s with
    currentSnake := sel
    currentMode := GameMode.adventure
    session := startGameStore sel GameMode.adventure (some lvl) s.session
    justUnlockedLevel := none
    screen := Screen.game }

/-- The `onBack` prop of `AdventureMap` (line 162): back to the Menu
screen only. -/
def onBack (s : AppState) : AppState :=
  { s with screen := Screen.menu }

/-- The `onOpenShop` prop of `MainMenu` (line 140). -/
def openShop (s : AppState) : AppState :=
  { s with showShop := true }

/-- The `onClose` prop of `ShopModal` (line 221). -/
def closeShop (s : AppState) : AppState :=
  { s with showShop := false }

/-- The `onOpenSettings` prop of `MainMenu` (line 141). -/
def openSettings (s : AppState) : AppState :=
  { s with showSettings := true }

/-- The `onClose` prop of `SettingsModal` (line 226). -/
def closeSettings (s : AppState) : AppState :=
  { s with showSettings := false }

/-- The `onOpenAdventureMap` prop of `MainMenu` (line 142). -/
def openAdventureMap (s : AppState) : AppState :=
  { s with screen := Screen.adventureMap }

/-- Events that can fire on the controller.  Payloads carry what the
external world supplies: the snake handed over by `MainMenu`, the result of
`getSelectedSnake()` at the moment a retry or level select fires, engine
callbacks, and an arbitrary session mutation by the mounted engine. -/
inductive Event where
  | startGame (snake : SnakeConfig) (mode : GameMode)
  | gameOver
  | playAgain (sel : Option SnakeConfig)
  | mainMenu
  | pausePress
  | resumePress
  | settingsFromPause
  | dpadPress (dir : Direction)
  | registerDirection (handler : Nat)
  | adventureComplete (lvl : Nat)
  | shopOpen
  | shopClose
  | settingsOpen
  | settingsClose
  | adventureMapOpen
  | selectLevel (sel : Option SnakeConfig) (lvl : Nat)
  | back
  | engineMutate (sess : Session)
deriving DecidableEq, Repr

/-- The engine host `GameCanvas` is mounted exactly when the screen is Game
or GameOver and a snake is set (line 167). -/
def engineMounted (s : AppState) : Bool :=
  (s.screen == Screen.game || s.screen == Screen.gameover)
    && s.currentSnake.isSome

/-- When each event's handler is wired into the rendered tree: `MainMenu`
props need the Menu screen, `AdventureMap` props the AdventureMap screen,
the GameOver modal needs the GameOver screen (inside the mounted game area),
the pause button needs a running unpaused game (line 172), the D-Pad needs
the same (line 188), engine callbacks need the engine mounted, the pause
menu props need `showPauseMenu`, and modal closes need their modal open. -/
def guard (s : AppState) (e : Event) : Bool :=
  match e with
  | Event.startGame _ _ => s.screen == Screen.menu
  | Event.gameOver => engineMounted s
  | Event.playAgain _ =>
      s.screen == Screen.gameover && s.currentSnake.isSome
  | Event.mainMenu =>
      (s.screen == Screen.gameover && s.currentSnake.isSome)
        || s.showPauseMenu
  | Event.pausePress =>
      s.screen == Screen.game && s.currentSnake.isSome
        && s.session.isPlaying && !s.session.isPaused
  | Event.resumePress => s.showPauseMenu
  | Event.settingsFromPause => s.showPauseMenu
  | Event.dpadPress _ =>
      s.screen == Screen.game && s.currentSnake.isSome
        && s.session.isPlaying && !s.session.isPaused
  | Event.registerDirection _ => engineMounted s
  | Event.adventureComplete _ => engineMounted s
  | Event.shopOpen => s.screen == Screen.menu
  | Event.shopClose => s.showShop
  | Event.settingsOpen => s.screen == Screen.menu
  | Event.settingsClose => s.showSettings
  | Event.adventureMapOpen => s.screen == Screen.menu
  | Event.selectLevel _ _ => s.screen == Screen.adventureMap
  | Event.back => s.screen == Screen.adventureMap
  | Event.engineMutate _ => engineMounted s

/-- State transition of each event (the handler it invokes). -/
def applyEv (e : Event) (s : AppState) : AppState :=
  match e with
  | Event.startGame snake mode => handleStartGame snake mode s
  | Event.gameOver => handleGameOver s
  | Event.playAgain sel => handlePlayAgain sel s
  | Event.mainMenu => handleMainMenu s
  | Event.pausePress => handlePauseGame s
  | Event.resumePress => handleResumeGame s
  | Event.settingsFromPause => handleOpenSettingsFromPause s
  | Event.dpadPress dir => (handleDpadPress dir s).1
  | Event.registerDirection h => setDirectionCallback h s
  | Event.adventureComplete lvl => (handleAdventureLevelComplete lvl s).1
  | Event.shopOpen => openShop s
  | Event.shopClose => closeShop s
  | Event.settingsOpen => openSettings s
  | Event.settingsClose => closeSettings s
  | Event.adventureMapOpen => openAdventureMap s
  | Event.selectLevel sel lvl => onSelectLevel sel lvl s
  | Event.back => onBack s
  | Event.engineMutate sess => { s with session := sess }

/-- External calls emitted by each event. -/
def emits (e : Event) (s : AppState) : List Effect :=
  match e with
  | Event.dpadPress dir => (handleDpadPress dir s).2
  | Event.adventureComplete lvl => (handleAdventureLevelComplete lvl s).2
  | Event.selectLevel _ _ => [Effect.log, Effect.log]
  | _ => []

/-- States reachable from the initial state through guarded events. -/
inductive Reachable : AppState → Prop where
  | init : Reachable initState
  | step {s : AppState} (e : Event) (hs : Reachable s)
      (hg : guard s e = true) : Reachable (applyEv e s)

/-- A snake with two extra lives, used to instantiate theorems. -/
def sampleSnake : SnakeConfig where
  id := 1
  extraLives := some 2

/-- A session snapshot at game over with all lives used. -/
def sampleSessionNoLives : Session where
  isPlaying := false
  isPaused := false
  isGameOver := true
  score := 1500
  lives := 0
  level := 6
  lastPlayedLevel := 4
  catHitsThisLevel := 2
  isFirstGame := false
  isDying := true
  isStunned := true
  stunEndTime := 99

/-- A session snapshot at game over with one life remaining. -/
def sampleSessionOneLife : Session :=
  { sampleSessionNoLives with lives := 1 }

/-- A controller state at the GameOver screen with all lives used. -/
def sampleStateNoLives : AppState where
  screen := Screen.gameover
  showShop := false
  showSettings := false
  showPauseMenu := false
  currentSnake := some sampleSnake
  currentMode := GameMode.adventure
  gameKey := 5
  justUnlockedLevel := none
  directionCallback := some 7
  session := sampleSessionNoLives

/-- A controller state at the GameOver screen with one life remaining. -/
def sampleStateOneLife : AppState :=
  { sampleStateNoLives with session := sampleSessionOneLife }

/-- C1: a retry from GameOver with `lives = 0` and a snake selected is a
full reset: lives become `3 + extraLives` (0 when unset), score and
cat hits become 0, `isFirstGame` is set, dying/stun state is cleared,
the level becomes `lastPlayedLevel`, `gameKey` increments by exactly one,
and the screen becomes Game. -/
theorem full_reset_retry_spec (s : AppState) (snake : SnakeConfig)
    (_hscr : s.screen = Screen.gameover)
    (hl : s.session.lives = 0) :
    (handlePlayAgain (some snake) s).session.lives
        = 3 + snake.extraLives.getD 0
      ∧ (handlePlayAgain (some snake) s).session.score = 0
      ∧ (handlePlayAgain (some snake) s).session.catHitsThisLevel = 0
      ∧ (handlePlayAgain (some snake) s).session.isFirstGame = true
      ∧ (handlePlayAgain (some snake) s).session.isDying = false
      ∧ (handlePlayAgain (some snake) s).session.isStunned = false
      ∧ (handlePlayAgain (some snake) s).session.stunEndTime = 0
      ∧ (handlePlayAgain (some snake) s).session.level
        = s.session.lastPlayedLevel
      ∧ (handlePlayAgain (some snake) s).gameKey = s.gameKey + 1
      ∧ (handlePlayAgain (some snake) s).screen = Screen.game := by
  simp [handlePlayAgain, hl]

/-- Witness for C1 at a concrete state: extra lives 2, last played level 4
give lives 5, level 4, score 0, bumped gameKey, Game screen. -/
theorem full_reset_retry_spec_witness :
    (handlePlayAgain (some sampleSnake) sampleStateNoLives).session.lives = 5
      ∧ (handlePlayAgain (some sampleSnake) sampleStateNoLives).session.score
        = 0
      ∧ (handlePlayAgain (some sampleSnake)
          sampleStateNoLives).session.level = 4
      ∧ (handlePlayAgain (some sampleSnake) sampleStateNoLives).gameKey = 6
      ∧ (handlePlayAgain (some sampleSnake) sampleStateNoLives).screen
        = Screen.game := by
  have h := full_reset_retry_spec sampleStateNoLives sampleSnake rfl rfl
  exact ⟨h.1, h.2.1, h.2.2.2.2.2.2.2.1, h.2.2.2.2.2.2.2.2.1,
    h.2.2.2.2.2.2.2.2.2⟩

/-- C2: a retry from GameOver with `lives > 0` and a snake selected is a
partial retry: score, level, cat hits, `isFirstGame` and `gameKey` are
unchanged; only `isPlaying` is set, `isPaused`/`isGameOver` are cleared,
dying/stun state is cleared with `stunEndTime = 0`, and the screen becomes
Game. -/
theorem partial_retry_frame (s : AppState) (snake : SnakeConfig)
    (_hscr : s.screen = Screen.gameover)
    (hl : 0 < s.session.lives) :
    (handlePlayAgain (some snake) s).session.score = s.session.score
      ∧ (handlePlayAgain (some snake) s).session.level = s.session.level
      ∧ (handlePlayAgain (some snake) s).session.catHitsThisLevel
        = s.session.catHitsThisLevel
      ∧ (handlePlayAgain (some snake) s).session.isFirstGame
        = s.session.isFirstGame
      ∧ (handlePlayAgain (some snake) s).gameKey = s.gameKey
      ∧ (handlePlayAgain (some snake) s).session.isPlaying = true
      ∧ (handlePlayAgain (some snake) s).session.isPaused = false
      ∧ (handlePlayAgain (some snake) s).session.isGameOver = false
      ∧ (handlePlayAgain (some snake) s).session.isDying = false
      ∧ (handlePlayAgain (some snake) s).session.isStunned = false
      ∧ (handlePlayAgain (some snake) s).session.stunEndTime = 0
      ∧ (handlePlayAgain (some snake) s).screen = Screen.game := by
  have hz : s.session.lives ≠ 0 := Nat.pos_iff_ne_zero.mp hl
  simp [handlePlayAgain, hz]

/-- Witness for C2 at a concrete state: one life left, score 1500, level 6
are all preserved and the gameKey stays 5. -/
theorem partial_retry_frame_witness :
    (handlePlayAgain (some sampleSnake) sampleStateOneLife).session.score
        = 1500
      ∧ (handlePlayAgain (some sampleSnake)
          sampleStateOneLife).session.level = 6
      ∧ (handlePlayAgain (some sampleSnake) sampleStateOneLife).gameKey = 5
      ∧ (handlePlayAgain (some sampleSnake) sampleStateOneLife).screen
        = Screen.game := by
  have h := partial_retry_frame sampleStateOneLife sampleSnake rfl
    (by decide)
  exact ⟨h.1, h.2.1, h.2.2.2.2.1, h.2.2.2.2.2.2.2.2.2.2.2⟩

/-- C10: neither retry branch writes `lastPlayedLevel` (the bulk patch does
not contain that field), and a full reset always restarts at the preserved
`lastPlayedLevel`. -/
theorem retry_preserves_lastPlayedLevel (s : AppState)
    (sel : Option SnakeConfig) :
    (handlePlayAgain sel s).session.lastPlayedLevel
        = s.session.lastPlayedLevel
      ∧ (∀ snake : SnakeConfig, s.session.lives = 0 →
        (handlePlayAgain (some snake) s).session.level
          = s.session.lastPlayedLevel) := by
  constructor
  · cases sel with
    | none => rfl
    | some snake =>
      simp only [handlePlayAgain]
      split <;> rfl
  · intro snake hl
    simp [handlePlayAgain, hl]

/-- Witness for C10 at a concrete state: `lastPlayedLevel` stays 4 across a
full-reset retry and the level is restored to it. -/
theorem retry_preserves_lastPlayedLevel_witness :
    (handlePlayAgain (some sampleSnake)
        sampleStateNoLives).session.lastPlayedLevel = 4
      ∧ (handlePlayAgain (some sampleSnake)
        sampleStateNoLives).session.level = 4 := by
  have h := retry_preserves_lastPlayedLevel sampleStateNoLives
    (some sampleSnake)
  exact ⟨h.1, h.2 sampleSnake rfl⟩

/-- The state on the adventure map right after opening it from the initial
menu. -/
def mapState : AppState := openAdventureMap initState

/-- C3 counterexample: with no snake selected, selecting an adventure level
is not a no-op: the screen changes away from AdventureMap (to Game), and the
session is mutated, refuting the claim that every start/retry action with no
selection leaves everything unchanged. -/
theorem selectLevel_no_snake_not_noop :
    (onSelectLevel none 2 mapState).screen ≠ mapState.screen
      ∧ (onSelectLevel none 2 mapState).screen = Screen.game
      ∧ (onSelectLevel none 2 mapState).session ≠ mapState.session := by
  refine ⟨?_, rfl, ?_⟩ <;> decide

/-- C3 amended: a retry with no snake selected is a full silent no-op (so
from GameOver the screen stays GameOver), but `onSelectLevel` performs no
selection check: with no snake selected it still records the empty selection
as the current snake, switches to adventure mode, starts the session at the
chosen level, and moves the screen to Game. -/
theorem no_snake_selected_amended (s : AppState) (lvl : Nat) :
    handlePlayAgain none s = s
      ∧ (onSelectLevel none lvl s).screen = Screen.game
      ∧ (onSelectLevel none lvl s).currentSnake = none
      ∧ (onSelectLevel none lvl s).currentMode = GameMode.adventure :=
  ⟨rfl, rfl, rfl, rfl⟩

/-- The non-null active snake property claimed as an invariant (C4). -/
def snakeInv (s : AppState) : Prop :=
    s.screen = Screen.game ∨ s.screen = Screen.gameover →
      s.currentSnake ≠ none

/-- C4 counterexample: a reachable state violating the claimed invariant:
open the adventure map from the initial menu and select level 2 while the
selection store returns no snake; the screen is Game and the active snake is
null. -/
theorem activeSnake_invariant_counterexample :
    Reachable (onSelectLevel none 2 mapState)
      ∧ (onSelectLevel none 2 mapState).screen = Screen.game
      ∧ (onSelectLevel none 2 mapState).currentSnake = none := by
  refine ⟨?_, rfl, rfl⟩
  exact Reachable.step (Event.selectLevel none 2)
    (Reachable.step Event.adventureMapOpen Reachable.init rfl) rfl

/-- Extra-lives-independent fact: a retry with a selected snake always sets
that snake as current. -/
theorem playAgain_some_currentSnake (snake : SnakeConfig) (s : AppState) :
    (handlePlayAgain (some snake) s).currentSnake = some snake := by
  simp only [handlePlayAgain]
  split <;> rfl

/-- C4 amended: every guarded event except an adventure level selection with
an empty selection preserves the invariant that the active snake is non-null
on the Game and GameOver screens; `onSelectLevel` preserves it only when the
selection store returns a snake. -/
theorem activeSnake_invariant_amended (s : AppState) (e : Event)
    (hg : guard s e = true) (hI : snakeInv s)
    (hsel : ∀ lvl : Nat, e ≠ Event.selectLevel none lvl) :
    snakeInv (applyEv e s) := by
  cases e with
  | startGame snake mode =>
      intro _ h
      exact Option.noConfusion h
  | gameOver =>
      simp only [guard, engineMounted, Bool.and_eq_true] at hg
      intro _ h
      have h2 : s.currentSnake = none := h
      rw [h2] at hg
      exact Bool.noConfusion hg.2
  | playAgain sel =>
      cases sel with
      | none => exact hI
      | some snake =>
          intro _ h
          have h2 : (handlePlayAgain (some snake) s).currentSnake = none := h
          rw [playAgain_some_currentSnake] at h2
          exact Option.noConfusion h2
  | mainMenu =>
      intro hscr
      rcases hscr with h | h <;> exact Screen.noConfusion h
  | pausePress => exact hI
  | resumePress => exact hI
  | settingsFromPause => exact hI
  | dpadPress dir =>
      have he : (handleDpadPress dir s).1 = s := by
        cases hdc : s.directionCallback <;> simp [handleDpadPress, hdc]
      simp only [applyEv]
      rw [he]
      exact hI
  | registerDirection h => exact hI
  | adventureComplete lvl => exact hI
  | shopOpen => exact hI
  | shopClose => exact hI
  | settingsOpen => exact hI
  | settingsClose => exact hI
  | adventureMapOpen =>
      intro hscr
      rcases hscr with h | h <;> exact Screen.noConfusion h
  | selectLevel sel lvl =>
      cases sel with
      | none => exact absurd rfl (hsel lvl)
      | some snake =>
          intro _ h
          exact Option.noConfusion h
  | back =>
      intro hscr
      rcases hscr with h | h <;> exact Screen.noConfusion h
  | engineMutate sess => exact hI

/-- Witness for the amended C4: a retry with a selected snake from a
concrete GameOver state keeps the invariant. -/
theorem activeSnake_invariant_amended_witness :
    snakeInv (applyEv (Event.playAgain (some sampleSnake))
      sampleStateNoLives) :=
  activeSnake_invariant_amended sampleStateNoLives
    (Event.playAgain (some sampleSnake)) rfl
    (fun _ h => Option.noConfusion h)
    (fun _ hcon => Event.noConfusion hcon)

/-- In every reachable state whose screen is Menu or AdventureMap the
session store holds its default state: the controller resets the store on
every return to the menu from gameplay, and neither opening the adventure
map nor backing out of it touches the store. -/
theorem menu_session_default {s : AppState} (h : Reachable s) :
    s.screen = Screen.menu ∨ s.screen = Screen.adventureMap →
      s.session = defaultSession := by
  induction h with
  | init => intro _; rfl
  | @step t e hs hg ih =>
    cases e with
    | startGame snake mode =>
        intro hscr
        rcases hscr with h | h <;> exact Screen.noConfusion h
    | gameOver =>
        intro hscr
        rcases hscr with h | h <;> exact Screen.noConfusion h
    | playAgain sel =>
        cases sel with
        | none =>
            simp only [guard, Bool.and_eq_true, beq_iff_eq] at hg
            intro hscr
            rcases hscr with h | h <;>
              exact Screen.noConfusion (hg.1.symm.trans h)
        | some snake =>
            intro hscr
            rcases hscr with h | h <;> exact Screen.noConfusion h
    | mainMenu => intro _; rfl
    | pausePress =>
        simp only [guard, Bool.and_eq_true, beq_iff_eq] at hg
        intro hscr
        rcases hscr with h | h <;>
          exact Screen.noConfusion (hg.1.1.1.symm.trans h)
    | resumePress =>
        intro hscr
        have h2 : t.screen = Screen.menu ∨ t.screen = Screen.adventureMap :=
          hscr
        exact (congrArg Session.resumeGame (ih h2)).trans rfl
    | settingsFromPause => exact fun hscr => ih hscr
    | dpadPress dir =>
        simp only [guard, Bool.and_eq_true, beq_iff_eq] at hg
        intro hscr
        have he : applyEv (Event.dpadPress dir) t = t := by
          simp only [applyEv]
          cases hdc : t.directionCallback <;> simp [handleDpadPress, hdc]
        rw [he] at hscr
        rcases hscr with h | h <;>
          exact Screen.noConfusion (hg.1.1.1.symm.trans h)
    | registerDirection h => exact fun hscr => ih hscr
    | adventureComplete lvl => exact fun hscr => ih hscr
    | shopOpen => exact fun hscr => ih hscr
    | shopClose => exact fun hscr => ih hscr
    | settingsOpen => exact fun hscr => ih hscr
    | settingsClose => exact fun hscr => ih hscr
    | adventureMapOpen =>
        simp only [guard, beq_iff_eq] at hg
        exact fun _ => ih (Or.inl hg)
    | selectLevel sel lvl =>
        intro hscr
        rcases hscr with h | h <;> exact Screen.noConfusion h
    | back =>
        simp only [guard, beq_iff_eq] at hg
        exact fun _ => ih (Or.inr hg)
    | engineMutate sess =>
        simp only [guard, engineMounted, Bool.and_eq_true,
          Bool.or_eq_true, beq_iff_eq] at hg
        intro hscr
        rcases hscr with h | h <;> rcases hg.1 with g | g <;>
          exact Screen.noConfusion (g.symm.trans h)

/-- C5: every guarded transition of the controller that ends on the Menu
screen ends with the session store in its default state: return-to-menu
resets the store, and backing out of the adventure map finds it already at
defaults because it was at defaults at every reachable menu or map state. -/
theorem menu_transition_resets_session (s : AppState) (e : Event)
    (hs : Reachable s) (hg : guard s e = true)
    (hmenu : (applyEv e s).screen = Screen.menu) :
    (applyEv e s).session = defaultSession :=
  menu_session_default (Reachable.step e hs hg) (Or.inl hmenu)

/-- Witness for C5: opening the shop from the initial menu keeps the screen
at Menu with the default session. -/
theorem menu_transition_resets_session_witness :
    (applyEv Event.shopOpen initState).screen = Screen.menu
      ∧ (applyEv Event.shopOpen initState).session = defaultSession :=
  ⟨rfl, menu_transition_resets_session initState Event.shopOpen
    Reachable.init rfl rfl⟩

/-- C6: pausing sets both `isPaused` and the pause-menu flag, resuming
always clears both, pause-then-resume restores both to their pre-pause
values (using that pause is only invocable while unpaused, where the
pause-menu-implies-paused invariant forces the menu flag to be down), and
both operations preserve that invariant. -/
theorem pause_resume_pair (s : AppState)
    (hp : s.session.isPaused = false)
    (hI : s.showPauseMenu = true → s.session.isPaused = true) :
    (handlePauseGame s).session.isPaused = true
      ∧ (handlePauseGame s).showPauseMenu = true
      ∧ (handleResumeGame (handlePauseGame s)).session.isPaused
        = s.session.isPaused
      ∧ (handleResumeGame (handlePauseGame s)).showPauseMenu
        = s.showPauseMenu
      ∧ (∀ t : AppState, (handleResumeGame t).session.isPaused = false
          ∧ (handleResumeGame t).showPauseMenu = false)
      ∧ (∀ t : AppState, (handlePauseGame t).showPauseMenu = true →
          (handlePauseGame t).session.isPaused = true)
      ∧ (∀ t : AppState, (handleResumeGame t).showPauseMenu = true →
          (handleResumeGame t).session.isPaused = true) := by
  have hm : s.showPauseMenu = false := by
    cases hsp : s.showPauseMenu
    · rfl
    · rw [hI hsp] at hp
      exact Bool.noConfusion hp
  refine ⟨rfl, rfl, ?_, ?_, ?_, ?_, ?_⟩
  · rw [hp]; rfl
  · rw [hm]; rfl
  · exact fun t => ⟨rfl, rfl⟩
  · exact fun t _ => rfl
  · intro t ht
    exact Bool.noConfusion ht

/-- Witness for C6 at a concrete unpaused state with the pause menu
hidden. -/
theorem pause_resume_pair_witness :
    (handlePauseGame sampleStateOneLife).session.isPaused = true
      ∧ (handleResumeGame (handlePauseGame
          sampleStateOneLife)).session.isPaused = false
      ∧ (handleResumeGame (handlePauseGame
          sampleStateOneLife)).showPauseMenu = false := by
  have h := pause_resume_pair sampleStateOneLife rfl (by decide)
  exact ⟨h.1, h.2.2.1.trans rfl, h.2.2.2.1.trans rfl⟩

/-- C7: an adventure level-complete signal from the engine leaves the whole
controller state (screen included) unchanged and emits the user-progress
unlock mutation exactly once. -/
theorem adventure_complete_frame (s : AppState) (lvl : Nat) :
    (handleAdventureLevelComplete lvl s).1 = s
      ∧ ((handleAdventureLevelComplete lvl s).2).count
          Effect.unlockNextLevel = 1 :=
  ⟨rfl, rfl⟩

/-- C8: opening the Shop or Settings overlay changes exactly that overlay
flag (the whole state equals the input with the single flag set, so the
screen and every other field are untouched), and closing clears exactly
that flag. -/
theorem overlay_toggle_frame (s : AppState) :
    openShop s = { s with showShop := true }
      ∧ closeShop s = { s with showShop := false }
      ∧ openSettings s = { s with showSettings := true }
      ∧ closeSettings s = { s with showSettings := false }
      ∧ (openShop s).screen = s.screen
      ∧ (closeShop s).screen = s.screen
      ∧ (openSettings s).screen = s.screen
      ∧ (closeSettings s).screen = s.screen
      ∧ (openShop s).showSettings = s.showSettings
      ∧ (openSettings s).showShop = s.showShop
      ∧ (closeShop s).showSettings = s.showSettings
      ∧ (closeSettings s).showShop = s.showShop :=
  ⟨rfl, rfl, rfl, rfl, rfl, rfl, rfl, rfl, rfl, rfl, rfl, rfl⟩

/-- C9: a D-Pad press never changes controller state; when a direction
handler is registered it is invoked with the pressed direction, and with no
handler registered nothing at all is emitted. -/
theorem dpad_press_routing (s : AppState) (dir : Direction) :
    (handleDpadPress dir s).1 = s
      ∧ (∀ h : Nat, s.directionCallback = some h →
          (handleDpadPress dir s).2 = [Effect.callDirection h dir])
      ∧ (s.directionCallback = none → (handleDpadPress dir s).2 = []) := by
  refine ⟨?_, ?_, ?_⟩
  · cases hdc : s.directionCallback <;> simp [handleDpadPress, hdc]
  · intro h hdc
    simp [handleDpadPress, hdc]
  · intro hdc
    simp [handleDpadPress, hdc]

/-- Witness for C9 at a concrete state with handler 7 registered. -/
theorem dpad_press_routing_witness :
    (handleDpadPress Direction.up sampleStateNoLives).1 = sampleStateNoLives
      ∧ (handleDpadPress Direction.up sampleStateNoLives).2
        = [Effect.callDirection 7 Direction.up] := by
  have h := dpad_press_routing sampleStateNoLives Direction.up
  exact ⟨h.1, h.2.1 7 rfl⟩

end NeoSnake
